import Mathlib

/-!
Verification development for the authoritative multiplayer server of a
2-player Battle City game.  The definitions below are a shallow embedding of
the server-side game engine (`GameEngine`) and of the enemy-queue manager
(`GameStateManager`).  TypeScript `number` values (coordinates, speeds,
millisecond countdowns) are modelled as rationals `ℚ`; the boolean tile
grids are modelled as `Nat → Bool` functions together with the fixed array
lengths `BRICKS_TOTAL` / `STEELS_TOTAL` (the map arrays have these fixed
lengths for the room's lifetime).
-/

namespace BattleCity

/-- Tank facing / bullet travel direction, one of up/down/left/right. -/
inductive Direction | up | down | left | right
deriving DecidableEq

/-- Side of a tank: human player or AI bot. -/
inductive TankSide | player | bot
deriving DecidableEq

/-- Tank level. -/
inductive TankLevel | basic | fast | power | armor
deriving DecidableEq

/-- Tank color. -/
inductive TankColor | yellow | green | silver | red
deriving DecidableEq

/-- Game status of a room's engine. -/
inductive GameStatus | waiting | playing | paused | finished
deriving DecidableEq

/-- Player slot in a room. -/
inductive Role | host | guest
deriving DecidableEq

/-- Axis selector for coordinate alignment. -/
inductive Axis | x | y
deriving DecidableEq

-- ==================== constants (GameEngine.ts header) ====================

def BLOCK_SIZE : ℚ := 16

/-- Battlefield side length: BLOCK_SIZE * 13 = 208 units. -/
def FIELD_SIZE : ℚ := BLOCK_SIZE * 13

def TANK_SIZE : ℚ := 16

def BULLET_SIZE : ℚ := 3

/-- Player tank speed, units per ms (0.045). -/
def TANK_SPEED_PLAYER : ℚ := 45/1000

/-- Bullet speed, units per ms (0.18). -/
def BULLET_SPEED : ℚ := 18/100

/-- Brick cell side (4 units). -/
def BRICK_SIZE : ℚ := 4

/-- Steel cell side (8 units). -/
def STEEL_SIZE : ℚ := 8

/-- Bricks per row: FIELD_SIZE / BRICK_SIZE = 52. -/
def BRICKS_PER_ROW : ℕ := 52

/-- Steels per row: FIELD_SIZE / STEEL_SIZE = 26. -/
def STEELS_PER_ROW : ℕ := 26

/-- Length of the brick bitmap array (52 * 52). -/
def BRICKS_TOTAL : ℕ := 2704

/-- Length of the steel bitmap array (26 * 26). -/
def STEELS_TOTAL : ℕ := 676

/-- Tank-vs-wall collision threshold (-0.01 permits sub-unit grazing). -/
def TANK_WALL_THRESHOLD : ℚ := -(1/100)

-- ==================== coordinate alignment helpers ====================

/-- floor8 x = Math.floor(x / 8) * 8. -/
def floor8 (x : ℚ) : ℚ := ((⌊x / 8⌋ : ℤ) : ℚ) * 8

/-- ceil8 x = Math.ceil(x / 8) * 8. -/
def ceil8 (x : ℚ) : ℚ := ((⌈x / 8⌉ : ℤ) : ℚ) * 8

/-- round8 x = Math.round(x / 8) * 8; JS Math.round is floor(v + 1/2). -/
def round8 (x : ℚ) : ℚ := ((⌊x / 8 + 1/2⌋ : ℤ) : ℚ) * 8

-- ==================== collision core ====================

/-- Helper of testCollision: between(min, value, max, th) is
min - th <= value && value <= max + th. -/
def between (lo v hi th : ℚ) : Prop := lo - th ≤ v ∧ v ≤ hi + th

instance (lo v hi th : ℚ) : Decidable (between lo v hi th) := by
  unfold between; exact inferInstance

/-- Rectangle-overlap predicate GameEngine.testCollision, with the subject
rectangle (x1, y1, w1, h1), the object rectangle (x2, y2, w2, h2) and a
signed threshold. -/
def testCollision (x1 y1 w1 h1 x2 y2 w2 h2 th : ℚ) : Prop :=
  between (x2 - w1) x1 (x2 + w2) th ∧ between (y2 - h1) y1 (y2 + h2) th

instance (x1 y1 w1 h1 x2 y2 w2 h2 th : ℚ) :
    Decidable (testCollision x1 y1 w1 h1 x2 y2 w2 h2 th) := by
  unfold testCollision; exact inferInstance

-- ==================== map state ====================

/-- Destructible tile map: brick and steel bitmaps plus the eagle flag. -/
structure MapState where
  bricks : ℕ → Bool
  steels : ℕ → Bool
  eagleBroken : Bool

/-- Left x-coordinate of brick cell i: (i % BRICKS_PER_ROW) * BRICK_SIZE. -/
def brickCellX (i : ℕ) : ℚ := ((i % BRICKS_PER_ROW : ℕ) : ℚ) * BRICK_SIZE

/-- Top y-coordinate of brick cell i: (i / BRICKS_PER_ROW) * BRICK_SIZE. -/
def brickCellY (i : ℕ) : ℚ := ((i / BRICKS_PER_ROW : ℕ) : ℚ) * BRICK_SIZE

/-- Left x-coordinate of steel cell i. -/
def steelCellX (i : ℕ) : ℚ := ((i % STEELS_PER_ROW : ℕ) : ℚ) * STEEL_SIZE

/-- Top y-coordinate of steel cell i. -/
def steelCellY (i : ℕ) : ℚ := ((i / STEELS_PER_ROW : ℕ) : ℚ) * STEEL_SIZE

/-- GameEngine.checkTankWallCollision: the 16x16 tank at (x, y) meets some
live brick or steel cell at the -0.01 threshold. -/
def checkTankWallCollision (m : MapState) (x y : ℚ) : Bool :=
  ((List.range BRICKS_TOTAL).any fun i =>
      m.bricks i && decide (testCollision x y TANK_SIZE TANK_SIZE
        (brickCellX i) (brickCellY i) BRICK_SIZE BRICK_SIZE TANK_WALL_THRESHOLD))
  || ((List.range STEELS_TOTAL).any fun i =>
      m.steels i && decide (testCollision x y TANK_SIZE TANK_SIZE
        (steelCellX i) (steelCellY i) STEEL_SIZE STEEL_SIZE TANK_WALL_THRESHOLD))

/-- GameEngine.getAlignedCoordinate: try floor8 and ceil8 of the coordinate on
the requested axis; pick the collision-free one, otherwise round8. -/
def getAlignedCoordinate (m : MapState) (x y : ℚ) (axis : Axis) : ℚ :=
  let coord := match axis with | Axis.x => x | Axis.y => y
  let floorVal := floor8 coord
  let ceilVal := ceil8 coord
  let roundVal := round8 coord
  match axis with
  | Axis.x =>
    let canFloor := ! checkTankWallCollision m floorVal y
    let canCeil := ! checkTankWallCollision m ceilVal y
    if !canFloor && canCeil then ceilVal
    else if canFloor && !canCeil then floorVal
    else roundVal
  | Axis.y =>
    let canFloor := ! checkTankWallCollision m x floorVal
    let canCeil := ! checkTankWallCollision m x ceilVal
    if !canFloor && canCeil then ceilVal
    else if canFloor && !canCeil then floorVal
    else roundVal

-- ==================== entity state ====================

/-- Server-side tank state (types.ts TankState). -/
structure TankState where
  tankId : ℕ
  x : ℚ
  y : ℚ
  direction : Direction
  moving : Bool
  alive : Bool
  side : TankSide
  level : TankLevel
  color : TankColor
  hp : ℚ
  helmetDuration : ℚ
  frozenTimeout : ℚ
  cooldown : ℚ
  withPowerUp : Bool
deriving DecidableEq

/-- Server-side bullet state (types.ts BulletState). -/
structure BulletState where
  bulletId : ℕ
  x : ℚ
  y : ℚ
  direction : Direction
  speed : ℚ
  tankId : ℕ
  power : ℕ
deriving DecidableEq

/-- Latest-input cell stored per player slot
(GameEngine.playerInputs.host / .guest). -/
structure InputCell where
  direction : Option Direction
  moving : Bool
  firing : Bool
deriving DecidableEq

/-- Inbound player_input payload (types.ts PlayerInput); the constant
type:"state" tag is omitted. -/
structure PlayerInput where
  direction : Option Direction
  moving : Bool
  firing : Bool
  timestamp : ℚ
deriving DecidableEq

-- ==================== player tank update ====================

/-- Whether a direction is horizontal (left or right). -/
def isHorizontal : Direction → Bool
  | Direction.left => true
  | Direction.right => true
  | _ => false

/-- Direction-change block of GameEngine.updatePlayerTanks (lines 228-252):
on a perpendicular turn the coordinate of the old movement axis is aligned
via getAlignedCoordinate and clamped, then the new direction is assigned. -/
def applyDirection (m : MapState) (inp : InputCell) (tank : TankState) : TankState :=
  match inp.direction with
  | none => tank
  | some newDir =>
    if newDir = tank.direction then tank
    else
      let oldDir := tank.direction
      let isOldHorizontal := isHorizontal oldDir
      let isNewHorizontal := isHorizontal newDir
      let isPerpendicular := isOldHorizontal ≠ isNewHorizontal
      if isPerpendicular then
        if isOldHorizontal then
          let alignedX := getAlignedCoordinate m tank.x tank.y Axis.x
          { tank with
              x := max 0 (min (FIELD_SIZE - TANK_SIZE) alignedX),
              direction := newDir }
        else
          let alignedY := getAlignedCoordinate m tank.x tank.y Axis.y
          { tank with
              y := max 0 (min (FIELD_SIZE - TANK_SIZE) alignedY),
              direction := newDir }
      else { tank with direction := newDir }

/-- GameEngine.calculateNewPosition. -/
def calculateNewPosition (x y : ℚ) (direction : Direction) (speed : ℚ) : ℚ × ℚ :=
  match direction with
  | Direction.up => (x, y - speed)
  | Direction.down => (x, y + speed)
  | Direction.left => (x - speed, y)
  | Direction.right => (x + speed, y)

/-- GameEngine.clampPosition: clamp a position into [0, FIELD_SIZE - size]. -/
def clampPosition (x y size : ℚ) : ℚ × ℚ :=
  (max 0 (min (FIELD_SIZE - size) x), max 0 (min (FIELD_SIZE - size) y))

/-- Movement block of GameEngine.updatePlayerTanks (lines 254-268): advance
by player speed along the facing, clamp to the field, and move only when
the candidate position is collision-free. -/
def applyMovement (m : MapState) (inp : InputCell) (delta : ℚ) (tank : TankState) : TankState :=
  if inp.moving then
    let speed := TANK_SPEED_PLAYER * delta
    let newPos := calculateNewPosition tank.x tank.y tank.direction speed
    let clampedPos := clampPosition newPos.1 newPos.2 TANK_SIZE
    if checkTankWallCollision m clampedPos.1 clampedPos.2 then tank
    else { tank with x := clampedPos.1, y := clampedPos.2 }
  else tank

/-- GameEngine.fireBullet: build the muzzle bullet (power 1, speed 0.18)
and set the firing tank's cooldown to 300 ms. -/
def fireBullet (tank : TankState) (bulletId : ℕ) : BulletState × TankState :=
  let bulletX := tank.x + (TANK_SIZE - BULLET_SIZE) / 2
  let bulletY := tank.y + (TANK_SIZE - BULLET_SIZE) / 2
  let pos : ℚ × ℚ :=
    match tank.direction with
    | Direction.up => (bulletX, tank.y - BULLET_SIZE)
    | Direction.down => (bulletX, tank.y + TANK_SIZE)
    | Direction.left => (tank.x - BULLET_SIZE, bulletY)
    | Direction.right => (tank.x + TANK_SIZE, bulletY)
  ({ bulletId := bulletId, x := pos.1, y := pos.2, direction := tank.direction,
     speed := BULLET_SPEED, tankId := tank.tankId, power := 1 },
   { tank with cooldown := 300 })

/-- Body of GameEngine.updatePlayerTanks for one slot's alive active tank:
refresh the moving flag, handle the direction change, move, then fire when
firing is requested and the cooldown has elapsed.  Returns the updated tank,
the list of newly emitted bullets and the new bullet-id counter. -/
def updateOnePlayerTank (m : MapState) (inp : InputCell) (delta : ℚ)
    (counter : ℕ) (tank : TankState) : TankState × List BulletState × ℕ :=
  let t1 := { tank with moving := inp.moving }
  let t2 := applyDirection m inp t1
  let t3 := applyMovement m inp delta t2
  if inp.firing = true ∧ t3.cooldown ≤ 0 then
    let fired := fireBullet t3 (counter + 1)
    (fired.2, [fired.1], counter + 1)
  else (t3, [], counter)

-- ==================== bullet update ====================

/-- Advance a bullet by speed * delta along its direction. -/
def moveBullet (delta : ℚ) (b : BulletState) : BulletState :=
  let newPos := calculateNewPosition b.x b.y b.direction (b.speed * delta)
  { b with x := newPos.1, y := newPos.2 }

/-- In-field predicate of GameEngine.updateBullets' filter: the 3x3 bullet
bounding box lies within [0, FIELD_SIZE] on both axes. -/
def bulletInField (b : BulletState) : Prop :=
  0 ≤ b.x ∧ b.x + BULLET_SIZE ≤ FIELD_SIZE ∧
  0 ≤ b.y ∧ b.y + BULLET_SIZE ≤ FIELD_SIZE

instance (b : BulletState) : Decidable (bulletInField b) := by
  unfold bulletInField; exact inferInstance

/-- GameEngine.updateBullets: move every bullet, then drop the ones whose
bounding box left the field. -/
def updateBullets (delta : ℚ) (bullets : List BulletState) : List BulletState :=
  (bullets.map (moveBullet delta)).filter fun b => decide (bulletInField b)

-- ==================== bullet vs wall collisions ====================

/-- Clamped brick-grid column/row window scanned for a bullet
(GameEngine.handleBulletWallCollisions lines 453-456): columns
max(0, floor(x / BRICK_SIZE)) .. min(BRICKS_PER_ROW - 1, floor((x + w) / BRICK_SIZE)),
and likewise for rows. -/
def brickWindow (b : BulletState) : ℤ × ℤ × ℤ × ℤ :=
  (max 0 ⌊b.x / BRICK_SIZE⌋,
   min ((BRICKS_PER_ROW : ℤ) - 1) ⌊(b.x + BULLET_SIZE) / BRICK_SIZE⌋,
   max 0 ⌊b.y / BRICK_SIZE⌋,
   min ((BRICKS_PER_ROW : ℤ) - 1) ⌊(b.y + BULLET_SIZE) / BRICK_SIZE⌋)

/-- Brick index i is visited by the bullet's window iteration. -/
def inBrickWindow (b : BulletState) (i : ℕ) : Prop :=
  let w := brickWindow b
  w.1 ≤ ((i % BRICKS_PER_ROW : ℕ) : ℤ) ∧ ((i % BRICKS_PER_ROW : ℕ) : ℤ) ≤ w.2.1 ∧
  w.2.2.1 ≤ ((i / BRICKS_PER_ROW : ℕ) : ℤ) ∧ ((i / BRICKS_PER_ROW : ℕ) : ℤ) ≤ w.2.2.2

instance (b : BulletState) (i : ℕ) : Decidable (inBrickWindow b i) := by
  unfold inBrickWindow; exact inferInstance

/-- Clamped steel-grid window scanned for a bullet (lines 469-472). -/
def steelWindow (b : BulletState) : ℤ × ℤ × ℤ × ℤ :=
  (max 0 ⌊b.x / STEEL_SIZE⌋,
   min ((STEELS_PER_ROW : ℤ) - 1) ⌊(b.x + BULLET_SIZE) / STEEL_SIZE⌋,
   max 0 ⌊b.y / STEEL_SIZE⌋,
   min ((STEELS_PER_ROW : ℤ) - 1) ⌊(b.y + BULLET_SIZE) / STEEL_SIZE⌋)

/-- Steel index i is visited by the bullet's window iteration. -/
def inSteelWindow (b : BulletState) (i : ℕ) : Prop :=
  let w := steelWindow b
  w.1 ≤ ((i % STEELS_PER_ROW : ℕ) : ℤ) ∧ ((i % STEELS_PER_ROW : ℕ) : ℤ) ≤ w.2.1 ∧
  w.2.2.1 ≤ ((i / STEELS_PER_ROW : ℕ) : ℤ) ∧ ((i / STEELS_PER_ROW : ℕ) : ℤ) ≤ w.2.2.2

instance (b : BulletState) (i : ℕ) : Decidable (inSteelWindow b i) := by
  unfold inSteelWindow; exact inferInstance

/-- The bullet hit some live wall cell within its scanned windows (the
bulletHit flag of handleBulletWallCollisions). -/
def bulletHitsWall (m : MapState) (b : BulletState) : Prop :=
  (∃ i, i < BRICKS_TOTAL ∧ inBrickWindow b i ∧ m.bricks i = true) ∨
  (∃ i, i < STEELS_TOTAL ∧ inSteelWindow b i ∧ m.steels i = true)

instance (m : MapState) (b : BulletState) : Decidable (bulletHitsWall m b) := by
  unfold bulletHitsWall
  exact instDecidableOr

/-- Per-bullet body of GameEngine.handleBulletWallCollisions (lines 439-497):
destroy every live brick in the window, destroy live steels in the window
only when power >= 3, and report whether the bullet hit any wall. -/
def bulletWallStep (m : MapState) (b : BulletState) : MapState × Bool :=
  let newBricks : ℕ → Bool := fun i =>
    if inBrickWindow b i ∧ m.bricks i = true then false else m.bricks i
  let newSteels : ℕ → Bool := fun i =>
    if 3 ≤ b.power ∧ inSteelWindow b i ∧ m.steels i = true then false else m.steels i
  ({ m with bricks := newBricks, steels := newSteels },
   decide (bulletHitsWall m b))

/-- Loop of handleBulletWallCollisions over all bullets, threading the map
and collecting the ids of bullets marked for removal. -/
def bulletWallLoop (m : MapState) (bullets : List BulletState) : MapState × List ℕ :=
  bullets.foldl
    (fun acc b =>
      let step := bulletWallStep acc.1 b
      (step.1, if step.2 then acc.2 ++ [b.bulletId] else acc.2))
    (m, [])

/-- GameEngine.handleBulletWallCollisions: apply the wall destructions and
remove every bullet that hit a wall. -/
def handleBulletWallCollisions (m : MapState) (bullets : List BulletState) :
    MapState × List BulletState :=
  let loop := bulletWallLoop m bullets
  (loop.1, bullets.filter fun b => ! loop.2.contains b.bulletId)

-- ==================== bullet vs tank collisions ====================

/-- Inner-loop body of GameEngine.handleBulletTankCollisions (lines 517-560)
for one bullet against one tank: skip the owner and dead tanks; on overlap
apply the damage policy for the owning side, returning the updated tank and
whether the bullet was marked for removal. -/
def bulletTankStep (sourceSide : TankSide) (b : BulletState) (tank : TankState) :
    TankState × Bool :=
  if tank.tankId = b.tankId then (tank, false)
  else if tank.alive = false then (tank, false)
  else if testCollision b.x b.y BULLET_SIZE BULLET_SIZE tank.x tank.y TANK_SIZE TANK_SIZE 0 then
    if sourceSide = TankSide.player then
      if tank.side = TankSide.player then (tank, true)
      else
        let hp := tank.hp - 1
        ({ tank with hp := hp, alive := if hp ≤ 0 then false else tank.alive }, true)
    else if sourceSide = TankSide.bot ∧ tank.side = TankSide.player then
      let damaged :=
        if tank.helmetDuration ≤ 0 then
          let hp := tank.hp - 1
          { tank with hp := hp, alive := if hp ≤ 0 then false else tank.alive }
        else tank
      (damaged, true)
    else (tank, false)
  else (tank, false)

/-- Side of the tank that fired a bullet; a missing owner defaults to
player ('sourceTank?.side || player'). -/
def bulletSourceSide (tanks : List TankState) (b : BulletState) : TankSide :=
  ((tanks.find? fun t => t.tankId = b.tankId).map fun t => t.side).getD TankSide.player

/-- GameEngine.handleBulletTankCollisions: for each bullet, run the damage
policy against every tank, collect the marked bullet ids, and finally remove
the marked bullets. -/
def handleBulletTankCollisions (tanks : List TankState) (bullets : List BulletState) :
    List TankState × List BulletState :=
  let loop :=
    bullets.foldl
      (fun acc b =>
        let sourceSide := bulletSourceSide acc.1 b
        let stepped := acc.1.map fun t => bulletTankStep sourceSide b t
        (stepped.map Prod.fst,
         if stepped.any Prod.snd then acc.2 ++ [b.bulletId] else acc.2))
      (tanks, ([] : List ℕ))
  (loop.1, bullets.filter fun b => ! loop.2.contains b.bulletId)

-- ==================== tank countdowns ====================

/-- Per-tank body of GameEngine.updateTankStates: decrement cooldown,
helmetDuration and frozenTimeout by delta, clamped at 0. -/
def updateTankState (delta : ℚ) (tank : TankState) : TankState :=
  let t1 := if 0 < tank.cooldown then { tank with cooldown := max 0 (tank.cooldown - delta) } else tank
  let t2 := if 0 < t1.helmetDuration then { t1 with helmetDuration := max 0 (t1.helmetDuration - delta) } else t1
  if 0 < t2.frozenTimeout then { t2 with frozenTimeout := max 0 (t2.frozenTimeout - delta) } else t2

-- ==================== whole-engine state ====================

/-- Per-slot player bookkeeping (types.ts PlayerState). -/
structure PlayerState where
  lives : ℕ
  score : ℕ
  activeTankId : Option ℕ
deriving DecidableEq

/-- Host/guest pair of player slots. -/
structure PlayersPair where
  host : PlayerState
  guest : PlayerState
deriving DecidableEq

/-- Host/guest pair of latest-input cells. -/
structure InputsPair where
  host : InputCell
  guest : InputCell
deriving DecidableEq

/-- Project a role's slot out of a players pair. -/
def playersGet (p : PlayersPair) : Role → PlayerState
  | Role.host => p.host
  | Role.guest => p.guest

/-- Project a role's input cell out of an inputs pair. -/
def inputsGet (p : InputsPair) : Role → InputCell
  | Role.host => p.host
  | Role.guest => p.guest

/-- Replace a role's input cell in an inputs pair. -/
def inputsSet (p : InputsPair) (r : Role) (c : InputCell) : InputsPair :=
  match r with
  | Role.host => { p with host := c }
  | Role.guest => { p with guest := c }

/-- Complete per-room game state (types.ts GameState). -/
structure GameState where
  tanks : List TankState
  bullets : List BulletState
  map : MapState
  players : PlayersPair
  remainingBots : ℕ
  gameStatus : GameStatus

/-- Engine-private fields of GameEngine beside the game state. -/
structure Engine where
  roomId : String
  state : GameState
  playerInputs : InputsPair
  tankIdCounter : ℕ
  bulletIdCounter : ℕ

/-- GameEngine.createInitialState; mapData is the result of
parseStageMap(STAGE_1_MAP). -/
def createInitialState (mapData : MapState) : GameState :=
  { tanks := []
    bullets := []
    map := { bricks := mapData.bricks, steels := mapData.steels, eagleBroken := false }
    players :=
      { host := { lives := 3, score := 0, activeTankId := none }
        guest := { lives := 3, score := 0, activeTankId := none } }
    remainingBots := 20
    gameStatus := GameStatus.waiting }

/-- Fresh engine for a room (GameEngine constructor). -/
def createEngine (roomId : String) (mapData : MapState) : Engine :=
  { roomId := roomId
    state := createInitialState mapData
    playerInputs :=
      { host := { direction := none, moving := false, firing := false }
        guest := { direction := none, moving := false, firing := false } }
    tankIdCounter := 0
    bulletIdCounter := 0 }

/-- Replace the tank with the given id in the list (the source mutates the
found tank object in place; tank ids are generated uniquely). -/
def replaceTank (tanks : List TankState) (t : TankState) : List TankState :=
  tanks.map fun u => if u.tankId = t.tankId then t else u

/-- One role's iteration of GameEngine.updatePlayerTanks: look up the slot's
alive active tank and run the per-tank update, merging the emitted bullets
into the engine state. -/
def updateRole (e : Engine) (delta : ℚ) (role : Role) : Engine :=
  match (playersGet e.state.players role).activeTankId with
  | none => e
  | some tankId =>
    match e.state.tanks.find? fun t => t.tankId = tankId with
    | none => e
    | some tank =>
      if tank.alive then
        let upd := updateOnePlayerTank e.state.map (inputsGet e.playerInputs role)
          delta e.bulletIdCounter tank
        { e with
            state := { e.state with
              tanks := replaceTank e.state.tanks upd.1
              bullets := e.state.bullets ++ upd.2.1 }
            bulletIdCounter := upd.2.2 }
      else e

/-- GameEngine.updatePlayerTanks: host first, then guest. -/
def updatePlayerTanks (e : Engine) (delta : ℚ) : Engine :=
  updateRole (updateRole e delta Role.host) delta Role.guest

/-- GameEngine.tick with the measured frame delta as a parameter: player
tanks, then bullets, then collisions, then tank countdowns. -/
def tick (e : Engine) (delta : ℚ) : Engine :=
  let e1 := updatePlayerTanks e delta
  let s2 := { e1.state with bullets := updateBullets delta e1.state.bullets }
  let wallStep := handleBulletWallCollisions s2.map s2.bullets
  let s3 := { s2 with map := wallStep.1, bullets := wallStep.2 }
  let tankStep := handleBulletTankCollisions s3.tanks s3.bullets
  let s4 := { s3 with tanks := tankStep.1, bullets := tankStep.2 }
  let s5 := { s4 with tanks := s4.tanks.map (updateTankState delta) }
  { e1 with state := s5 }

/-- GameEngine.handleInput: inputs are dropped unless the game is playing;
otherwise the slot's cell is overwritten, keeping the previous direction when
the input carries none ('input.direction || previous'). -/
def handleInput (e : Engine) (role : Role) (inp : PlayerInput) : Engine :=
  if e.state.gameStatus ≠ GameStatus.playing then e
  else
    let previous := inputsGet e.playerInputs role
    let cell : InputCell :=
      { direction := match inp.direction with
          | some d => some d
          | none => previous.direction
        moving := inp.moving
        firing := inp.firing }
    { e with playerInputs := inputsSet e.playerInputs role cell }

/-- Snapshot payload produced by GameEngine.getState. -/
structure StateSyncPayload where
  tanks : List TankState
  bullets : List BulletState
  map : MapState
  players : PlayersPair
  remainingBots : ℕ
  gameStatus : GameStatus
  timestamp : ℚ

/-- GameEngine.getState with the wall-clock timestamp as a parameter. -/
def getState (e : Engine) (now : ℚ) : StateSyncPayload :=
  { tanks := e.state.tanks
    bullets := e.state.bullets
    map := e.state.map
    players := e.state.players
    remainingBots := e.state.remainingBots
    gameStatus := e.state.gameStatus
    timestamp := now }

-- ==================== GameStateManager (enemy queue) ====================

/-- Two's-complement 32-bit wrap used by JS bitwise operators. -/
def toInt32 (z : ℤ) : ℤ := (z + 2 ^ 31) % 2 ^ 32 - 2 ^ 31

/-- One character step of GameStateManager.generateSeed:
hash = toInt32(toInt32(hash << 5) - hash + charCode). -/
def hashStep (h : ℤ) (c : ℕ) : ℤ := toInt32 (toInt32 (h * 32) - h + (c : ℤ))

/-- GameStateManager.generateSeed: 32-bit string hash of the room id,
then Math.abs. -/
def generateSeed (roomId : String) : ℕ :=
  (roomId.data.foldl (fun h ch => hashStep h ch.toNat) 0).natAbs

/-- One step of the seeded LCG: random = (random * 9301 + 49297) % 233280. -/
def seededNext (r : ℕ) : ℕ := (r * 9301 + 49297) % 233280

/-- Simultaneous swap of positions i and j of a list
('[array[i], array[j]] = [array[j], array[i]]'). -/
def swapList (l : List α) (i j : ℕ) : List α :=
  match l[i]?, l[j]? with
  | some vi, some vj => (l.set i vj).set j vi
  | _, _ => l

/-- Fisher-Yates loop of GameStateManager.shuffleArray, iterating i from
the given index down to 1; j = Math.floor(random/233280 * (i+1)) is modelled
by exact natural arithmetic (the float quotient random/233280 lies in [0,1)). -/
def shuffleFrom (l : List α) (r : ℕ) : ℕ → List α × ℕ
  | 0 => (l, r)
  | Nat.succ k =>
    let rNext := seededNext r
    let j := rNext * (k + 2) / 233280
    shuffleFrom (swapList l (k + 1) j) rNext k

/-- GameStateManager.shuffleArray with a seed. -/
def shuffleArray (l : List α) (seed : ℕ) : List α :=
  (shuffleFrom l seed (l.length - 1)).1

/-- The unshuffled enemy queue: 18 basic, then fast, then power. -/
def baseEnemyQueue : List TankLevel :=
  List.replicate 18 TankLevel.basic ++ [TankLevel.fast, TankLevel.power]

/-- GameStateManager.initializeEnemyQueue: the per-room queue of 20 bot
levels, shuffled with the room-id seed. -/
def initializeEnemyQueue (roomId : String) : List TankLevel :=
  shuffleArray baseEnemyQueue (generateSeed roomId)

/-- Per-room queue state of GameStateManager (queue plus spawn counter). -/
structure EnemyQueueState where
  queue : List TankLevel
  counter : ℕ
deriving DecidableEq

/-- Queue state directly after initializeEnemyQueue. -/
def initialEnemyQueueState (roomId : String) : EnemyQueueState :=
  { queue := initializeEnemyQueue roomId, counter := 0 }

/-- Spawn data returned by GameStateManager.spawnNextEnemy (the formatted
tankId string is omitted). -/
structure EnemySpawnData where
  x : ℚ
  y : ℚ
  level : TankLevel
  hp : ℕ
  withPowerUp : Bool
deriving DecidableEq

/-- Bot spawn positions, cycled by counter. -/
def spawnPositions : List (ℚ × ℚ) := [(0, 0), (192, 0), (384, 0)]

/-- GameStateManager.spawnNextEnemy: take the queue entry at the counter
(none when drained), with hp 4 for armor else 1, a power-up for counters
3, 10 and 17, and a cycled spawn position; the counter advances on success. -/
def spawnNextEnemy (s : EnemyQueueState) : Option EnemySpawnData × EnemyQueueState :=
  if h : s.counter < s.queue.length then
    let level := s.queue.get ⟨s.counter, h⟩
    let hp : ℕ := if level = TankLevel.armor then 4 else 1
    let withPowerUp : Bool := decide (s.counter = 3 ∨ s.counter = 10 ∨ s.counter = 17)
    let pos := spawnPositions.getD (s.counter % spawnPositions.length) (0, 0)
    (some { x := pos.1, y := pos.2, level := level, hp := hp, withPowerUp := withPowerUp },
     { s with counter := s.counter + 1 })
  else (none, s)

/-- Queue state after n calls of spawnNextEnemy. -/
def spawnN (s : EnemyQueueState) : ℕ → EnemyQueueState
  | 0 => s
  | Nat.succ n => spawnN (spawnNextEnemy s).2 n

/-- Levels (as options) produced by n successive spawnNextEnemy calls. -/
def spawnLevels (s : EnemyQueueState) : ℕ → List (Option TankLevel)
  | 0 => []
  | Nat.succ n =>
    let step := spawnNextEnemy s
    (step.1.map fun d => d.level) :: spawnLevels step.2 n

/-- GameStateManager.getRemainingEnemyCount. -/
def getRemainingEnemyCount (s : EnemyQueueState) : ℕ := s.queue.length - s.counter

-- ==================== concrete instances used by witnesses ====================

/-- All-empty tile map. -/
def emptyMapState : MapState :=
  { bricks := fun _ => false, steels := fun _ => false, eagleBroken := false }

/-- Map whose only live cell is brick 0. -/
def brickZeroMap : MapState :=
  { bricks := fun i => decide (i = 0), steels := fun _ => false, eagleBroken := false }

/-- Sample player tank, facing left at (3, 100). -/
def sampleTank : TankState :=
  { tankId := 1, x := 3, y := 100, direction := Direction.left, moving := false,
    alive := true, side := TankSide.player, level := TankLevel.basic,
    color := TankColor.yellow, hp := 1, helmetDuration := 0, frozenTimeout := 0,
    cooldown := 0, withPowerUp := false }

/-- Sample bot tank at the origin. -/
def sampleBotTank : TankState :=
  { tankId := 2, x := 0, y := 0, direction := Direction.down, moving := false,
    alive := true, side := TankSide.bot, level := TankLevel.basic,
    color := TankColor.silver, hp := 1, helmetDuration := 0, frozenTimeout := 0,
    cooldown := 0, withPowerUp := false }

/-- Input requesting a turn upward. -/
def sampleInputUp : InputCell :=
  { direction := some Direction.up, moving := false, firing := false }

/-- Input requesting movement only. -/
def sampleInputMove : InputCell :=
  { direction := none, moving := true, firing := false }

/-- Input requesting fire only. -/
def sampleInputFire : InputCell :=
  { direction := none, moving := false, firing := true }

/-- Sample bullet near the right field edge. -/
def sampleBullet : BulletState :=
  { bulletId := 1, x := 207, y := 100, direction := Direction.right,
    speed := BULLET_SPEED, tankId := 1, power := 1 }

/-- Sample bullet overlapping brick cell 0. -/
def sampleBulletNearOrigin : BulletState :=
  { bulletId := 2, x := 1, y := 1, direction := Direction.up,
    speed := BULLET_SPEED, tankId := 1, power := 1 }

/-- Sample bullet overlapping the bot tank at the origin, owned by tank 1. -/
def sampleBulletOnBot : BulletState :=
  { bulletId := 3, x := 5, y := 5, direction := Direction.down,
    speed := BULLET_SPEED, tankId := 1, power := 1 }

/-- Sample inbound input payload. -/
def samplePlayerInput : PlayerInput :=
  { direction := some Direction.down, moving := true, firing := false, timestamp := 0 }

/-- Engine whose game status is playing, as after GameEngine.start. -/
def samplePlayingEngine : Engine :=
  let e := createEngine "ROOM01" emptyMapState
  { e with state := { e.state with gameStatus := GameStatus.playing } }

-- ==================== spec-side formulations ====================

/-- Rectangle-overlap formula exactly as the specification states it, with
between(a, v, b, t) expanded to a - t <= v <= b + t. -/
def overlapSpecFormula (ax ay aw ah bx by' bw bh t : ℚ) : Prop :=
  ((bx - aw) - t ≤ ax ∧ ax ≤ (bx + bw) + t) ∧
  ((by' - ah) - t ≤ ay ∧ ay ≤ (by' + bh) + t)

/-- Clamped candidate position of a moving player tank for one tick. -/
def candidatePosition (t : TankState) (delta : ℚ) : ℚ × ℚ :=
  let newPos := calculateNewPosition t.x t.y t.direction (TANK_SPEED_PLAYER * delta)
  clampPosition newPos.1 newPos.2 TANK_SIZE

/-- Tank state after the moving-flag, direction and movement phases of a
player tank update (the value the firing phase operates on). -/
def movedTank (m : MapState) (inp : InputCell) (delta : ℚ) (tank : TankState) : TankState :=
  applyMovement m inp delta (applyDirection m inp { tank with moving := inp.moving })

/-- Brick cell i overlaps the bullet's bounding box with positive area. -/
def brickCellMeetsBullet (b : BulletState) (i : ℕ) : Prop :=
  brickCellX i < b.x + BULLET_SIZE ∧ b.x < brickCellX i + BRICK_SIZE ∧
  brickCellY i < b.y + BULLET_SIZE ∧ b.y < brickCellY i + BRICK_SIZE

instance (b : BulletState) (i : ℕ) : Decidable (brickCellMeetsBullet b i) := by
  unfold brickCellMeetsBullet; exact inferInstance

/-- Steel cell i overlaps the bullet's bounding box with positive area. -/
def steelCellMeetsBullet (b : BulletState) (i : ℕ) : Prop :=
  steelCellX i < b.x + BULLET_SIZE ∧ b.x < steelCellX i + STEEL_SIZE ∧
  steelCellY i < b.y + BULLET_SIZE ∧ b.y < steelCellY i + STEEL_SIZE

instance (b : BulletState) (i : ℕ) : Decidable (steelCellMeetsBullet b i) := by
  unfold steelCellMeetsBullet; exact inferInstance

-- ==================== claim theorems ====================

/-- C4: the rectangle-overlap predicate testCollision(A, B, t) holds exactly
when between(Bx - Aw, Ax, Bx + Bw, t) and between(By - Ah, Ay, By + Bh, t)
hold, with between(a, v, b, t) meaning a - t <= v <= b + t, for all
rectangle coordinates, sizes and thresholds. -/
theorem testCollision_iff_spec_formula (x1 y1 w1 h1 x2 y2 w2 h2 th : ℚ) :
    testCollision x1 y1 w1 h1 x2 y2 w2 h2 th ↔
      overlapSpecFormula x1 y1 w1 h1 x2 y2 w2 h2 th :=
  Iff.rfl

/-- C9: after the bullet-update step every remaining bullet's 3x3 bounding
box lies within [0, FIELD_SIZE] on both axes, and a moved bullet whose
bounding box leaves the field is not in the updated list. -/
theorem updateBullets_in_field (delta : ℚ) (bs : List BulletState) :
    (∀ b ∈ updateBullets delta bs, bulletInField b) ∧
    (∀ b ∈ bs, ¬ bulletInField (moveBullet delta b) →
      moveBullet delta b ∉ updateBullets delta bs) := by
  have h1 : ∀ b ∈ updateBullets delta bs, bulletInField b := by
    intro b hb
    unfold updateBullets at hb
    rw [List.mem_filter] at hb
    exact of_decide_eq_true hb.2
  exact ⟨h1, fun b _ hout hmem => hout (h1 _ hmem)⟩

/-- Witness for C9: a bullet at x = 207 moving right for a 10 ms tick leaves
the field and is removed by updateBullets. -/
theorem updateBullets_in_field_witness :
    sampleBullet ∈ [sampleBullet] ∧
    ¬ bulletInField (moveBullet 10 sampleBullet) ∧
    moveBullet 10 sampleBullet ∉ updateBullets 10 [sampleBullet] := by
  have hmem : sampleBullet ∈ [sampleBullet] := by simp
  have hout : ¬ bulletInField (moveBullet 10 sampleBullet) := by
    norm_num [bulletInField, moveBullet, calculateNewPosition, sampleBullet,
      BULLET_SIZE, BULLET_SPEED, FIELD_SIZE, BLOCK_SIZE]
  exact ⟨hmem, hout, (updateBullets_in_field 10 [sampleBullet]).2 sampleBullet hmem hout⟩

/-- C10: handleInput drops the input (the whole engine is unchanged) unless
the game status is playing; otherwise it overwrites the slot's moving and
firing flags, replaces the stored direction only when the input carries one,
keeps the previous direction when the input's direction is absent, and leaves
the other slot and the rest of the engine unchanged. -/
theorem handleInput_spec (e : Engine) (role : Role) (inp : PlayerInput) :
    (e.state.gameStatus ≠ GameStatus.playing → handleInput e role inp = e) ∧
    (e.state.gameStatus = GameStatus.playing →
      (handleInput e role inp).state = e.state ∧
      (handleInput e role inp).roomId = e.roomId ∧
      (handleInput e role inp).tankIdCounter = e.tankIdCounter ∧
      (handleInput e role inp).bulletIdCounter = e.bulletIdCounter ∧
      (inputsGet (handleInput e role inp).playerInputs role).moving = inp.moving ∧
      (inputsGet (handleInput e role inp).playerInputs role).firing = inp.firing ∧
      (∀ d, inp.direction = some d →
        (inputsGet (handleInput e role inp).playerInputs role).direction = some d) ∧
      (inp.direction = none →
        (inputsGet (handleInput e role inp).playerInputs role).direction =
          (inputsGet e.playerInputs role).direction) ∧
      (∀ r, r ≠ role →
        inputsGet (handleInput e role inp).playerInputs r =
          inputsGet e.playerInputs r)) := by
  constructor
  · intro h
    simp [handleInput, h]
  · intro h
    have hif : handleInput e role inp =
        { e with playerInputs := (inputsSet e.playerInputs role
            { direction := (match inp.direction with
                | some d => some d
                | none => (inputsGet e.playerInputs role).direction)
              moving := inp.moving
              firing := inp.firing }) } := by
      unfold handleInput
      rw [if_neg (by simp [h])]
    refine ⟨?_, ?_, ?_, ?_, ?_, ?_, ?_, ?_, ?_⟩ <;> rw [hif] <;> cases role <;>
      first
      | rfl
      | (intro d hd
         simp [inputsGet, inputsSet, hd]
         done)
      | (intro hd
         simp [inputsGet, inputsSet, hd]
         done)
      | (intro r hr
         cases r <;> simp_all [inputsGet, inputsSet])

/-- Witness for C10: a direction-less input on the playing engine keeps the
slot's stored direction while overwriting moving and firing. -/
theorem handleInput_spec_witness :
    samplePlayingEngine.state.gameStatus = GameStatus.playing ∧
    ({ direction := none, moving := true, firing := true,
       timestamp := 5 } : PlayerInput).direction = none ∧
    (inputsGet (handleInput samplePlayingEngine Role.host
        { direction := none, moving := true, firing := true,
          timestamp := 5 }).playerInputs Role.host).direction =
      (inputsGet samplePlayingEngine.playerInputs Role.host).direction := by
  refine ⟨rfl, rfl, ?_⟩
  exact (((handleInput_spec samplePlayingEngine Role.host
    { direction := none, moving := true, firing := true,
      timestamp := 5 }).2 rfl).2.2.2.2.2.2.2.1) rfl

/-- C8: for a moving player tank the clamped candidate position
(current position advanced by speed * delta along the facing, clamped to the
field) is applied only when it is collision-free at the -0.01 threshold;
when the candidate collides, the tank is exactly unchanged for the tick. -/
theorem applyMovement_no_slide (m : MapState) (inp : InputCell) (delta : ℚ)
    (t : TankState) (hm : inp.moving = true) :
    (checkTankWallCollision m (candidatePosition t delta).1
        (candidatePosition t delta).2 = true →
      applyMovement m inp delta t = t) ∧
    (checkTankWallCollision m (candidatePosition t delta).1
        (candidatePosition t delta).2 = false →
      applyMovement m inp delta t =
        { t with x := (candidatePosition t delta).1
                 y := (candidatePosition t delta).2 }) := by
  constructor <;> intro hc <;>
    simp only [candidatePosition, clampPosition, calculateNewPosition] at hc <;>
    simp [applyMovement, hm, candidatePosition, clampPosition, calculateNewPosition, hc]

/-- Witness for C8: the movement characterization at a concrete moving tank
on the empty map. -/
theorem applyMovement_no_slide_witness :
    sampleInputMove.moving = true ∧
    ((checkTankWallCollision emptyMapState (candidatePosition sampleTank 1).1
        (candidatePosition sampleTank 1).2 = true →
      applyMovement emptyMapState sampleInputMove 1 sampleTank = sampleTank) ∧
    (checkTankWallCollision emptyMapState (candidatePosition sampleTank 1).1
        (candidatePosition sampleTank 1).2 = false →
      applyMovement emptyMapState sampleInputMove 1 sampleTank =
        { sampleTank with x := (candidatePosition sampleTank 1).1
                          y := (candidatePosition sampleTank 1).2 })) :=
  ⟨rfl, applyMovement_no_slide emptyMapState sampleInputMove 1 sampleTank rfl⟩

/-- C2: damage policy of the bullet-tank collision step for a bullet
overlapping an alive tank other than its owner.  Player-owned bullet on a
player tank: bullet marked for removal, tank untouched.  Player-owned bullet
on a bot: hp drops by one, alive cleared when the new hp is at most 0,
bullet marked.  Bot-owned bullet on a player: bullet marked, damage only
when helmetDuration has elapsed.  Bot-owned bullet on a bot: no mark and no
damage. -/
theorem bulletTankStep_policy (ss : TankSide) (b : BulletState) (t : TankState)
    (hid : t.tankId ≠ b.tankId) (halive : t.alive = true)
    (hcol : testCollision b.x b.y BULLET_SIZE BULLET_SIZE t.x t.y TANK_SIZE TANK_SIZE 0) :
    (ss = TankSide.player → t.side = TankSide.player →
      bulletTankStep ss b t = (t, true)) ∧
    (ss = TankSide.player → t.side = TankSide.bot →
      bulletTankStep ss b t =
        ({ t with hp := t.hp - 1
                  alive := if t.hp - 1 ≤ 0 then false else t.alive }, true)) ∧
    (ss = TankSide.bot → t.side = TankSide.player →
      (0 < t.helmetDuration → bulletTankStep ss b t = (t, true)) ∧
      (t.helmetDuration ≤ 0 →
        bulletTankStep ss b t =
          ({ t with hp := t.hp - 1
                    alive := if t.hp - 1 ≤ 0 then false else t.alive }, true))) ∧
    (ss = TankSide.bot → t.side = TankSide.bot →
      bulletTankStep ss b t = (t, false)) := by
  refine ⟨?_, ?_, ?_, ?_⟩ <;> intro hss hside
  · simp [bulletTankStep, hid, halive, hcol, hss, hside]
  · simp [bulletTankStep, hid, halive, hcol, hss, hside]
  · constructor <;> intro hh
    · have hh2 : ¬ t.helmetDuration ≤ 0 := not_le.mpr hh
      simp [bulletTankStep, hid, halive, hcol, hss, hside, hh2]
    · simp [bulletTankStep, hid, halive, hcol, hss, hside, hh]
  · simp [bulletTankStep, hid, halive, hcol, hss, hside]

/-- Witness for C2: a player bullet overlapping the alive bot tank at the
origin is consumed and the bot takes one damage. -/
theorem bulletTankStep_policy_witness :
    sampleBotTank.tankId ≠ sampleBulletOnBot.tankId ∧
    sampleBotTank.alive = true ∧
    testCollision sampleBulletOnBot.x sampleBulletOnBot.y BULLET_SIZE BULLET_SIZE
      sampleBotTank.x sampleBotTank.y TANK_SIZE TANK_SIZE 0 ∧
    bulletTankStep TankSide.player sampleBulletOnBot sampleBotTank =
      ({ sampleBotTank with
          hp := sampleBotTank.hp - 1
          alive := if sampleBotTank.hp - 1 ≤ 0 then false else sampleBotTank.alive }, true) := by
  have hid : sampleBotTank.tankId ≠ sampleBulletOnBot.tankId := by decide
  have hcol : testCollision sampleBulletOnBot.x sampleBulletOnBot.y BULLET_SIZE BULLET_SIZE
      sampleBotTank.x sampleBotTank.y TANK_SIZE TANK_SIZE 0 := by
    norm_num [testCollision, between, sampleBulletOnBot, sampleBotTank,
      BULLET_SIZE, TANK_SIZE]
  exact ⟨hid, rfl, hcol,
    (bulletTankStep_policy TankSide.player sampleBulletOnBot sampleBotTank
      hid rfl hcol).2.1 rfl rfl⟩

/-- Helper: the direction phase never touches the cooldown. -/
theorem applyDirection_cooldown (m : MapState) (inp : InputCell) (t : TankState) :
    (applyDirection m inp t).cooldown = t.cooldown := by
  unfold applyDirection
  cases hD : inp.direction with
  | none => rfl
  | some d =>
    simp only
    split
    · rfl
    · split
      · split <;> rfl
      · rfl

/-- Helper: the movement phase never touches the cooldown. -/
theorem applyMovement_cooldown (m : MapState) (inp : InputCell) (delta : ℚ)
    (t : TankState) : (applyMovement m inp delta t).cooldown = t.cooldown := by
  unfold applyMovement
  split
  · dsimp only
    split <;> rfl
  · rfl

/-- Helper: the pre-fire phases never touch the cooldown. -/
theorem movedTank_cooldown (m : MapState) (inp : InputCell) (delta : ℚ)
    (t : TankState) : (movedTank m inp delta t).cooldown = t.cooldown := by
  unfold movedTank
  rw [applyMovement_cooldown, applyDirection_cooldown]

/-- C7: during a player tank update a bullet is emitted exactly when the
input fires and the tank's cooldown has elapsed; the bullet has power 1 and
sits at the tank's front-center muzzle for its facing, the cooldown is set
to 300 ms, and firing with a positive cooldown emits nothing. -/
theorem updateOnePlayerTank_fire (m : MapState) (inp : InputCell) (delta : ℚ)
    (counter : ℕ) (t : TankState) :
    (inp.firing = true → t.cooldown ≤ 0 →
      updateOnePlayerTank m inp delta counter t =
        ({ movedTank m inp delta t with cooldown := 300 },
         [(fireBullet (movedTank m inp delta t) (counter + 1)).1], counter + 1) ∧
      (fireBullet (movedTank m inp delta t) (counter + 1)).1.power = 1 ∧
      (fireBullet (movedTank m inp delta t) (counter + 1)).1.speed = BULLET_SPEED ∧
      (fireBullet (movedTank m inp delta t) (counter + 1)).1.tankId =
        (movedTank m inp delta t).tankId ∧
      (fireBullet (movedTank m inp delta t) (counter + 1)).1.direction =
        (movedTank m inp delta t).direction ∧
      ((movedTank m inp delta t).direction = Direction.up →
        (fireBullet (movedTank m inp delta t) (counter + 1)).1.x =
          (movedTank m inp delta t).x + (TANK_SIZE - BULLET_SIZE) / 2 ∧
        (fireBullet (movedTank m inp delta t) (counter + 1)).1.y =
          (movedTank m inp delta t).y - BULLET_SIZE) ∧
      ((movedTank m inp delta t).direction = Direction.down →
        (fireBullet (movedTank m inp delta t) (counter + 1)).1.x =
          (movedTank m inp delta t).x + (TANK_SIZE - BULLET_SIZE) / 2 ∧
        (fireBullet (movedTank m inp delta t) (counter + 1)).1.y =
          (movedTank m inp delta t).y + TANK_SIZE) ∧
      ((movedTank m inp delta t).direction = Direction.left →
        (fireBullet (movedTank m inp delta t) (counter + 1)).1.x =
          (movedTank m inp delta t).x - BULLET_SIZE ∧
        (fireBullet (movedTank m inp delta t) (counter + 1)).1.y =
          (movedTank m inp delta t).y + (TANK_SIZE - BULLET_SIZE) / 2) ∧
      ((movedTank m inp delta t).direction = Direction.right →
        (fireBullet (movedTank m inp delta t) (counter + 1)).1.x =
          (movedTank m inp delta t).x + TANK_SIZE ∧
        (fireBullet (movedTank m inp delta t) (counter + 1)).1.y =
          (movedTank m inp delta t).y + (TANK_SIZE - BULLET_SIZE) / 2)) ∧
    (inp.firing = false →
      updateOnePlayerTank m inp delta counter t = (movedTank m inp delta t, [], counter)) ∧
    (0 < t.cooldown →
      updateOnePlayerTank m inp delta counter t = (movedTank m inp delta t, [], counter)) := by
  have hcd := movedTank_cooldown m inp delta t
  refine ⟨?_, ?_, ?_⟩
  · intro hf hc
    have hcond : inp.firing = true ∧
        (applyMovement m inp delta
          (applyDirection m inp { t with moving := inp.moving })).cooldown ≤ 0 := by
      refine ⟨hf, ?_⟩
      have : (movedTank m inp delta t).cooldown ≤ 0 := by rw [hcd]; exact hc
      simpa [movedTank] using this
    refine ⟨?_, rfl, rfl, rfl, rfl, ?_, ?_, ?_, ?_⟩
    · show updateOnePlayerTank m inp delta counter t = _
      unfold updateOnePlayerTank
      rw [if_pos hcond]
      rfl
    · intro hdir
      unfold fireBullet
      rw [hdir]
      exact ⟨rfl, rfl⟩
    · intro hdir
      unfold fireBullet
      rw [hdir]
      exact ⟨rfl, rfl⟩
    · intro hdir
      unfold fireBullet
      rw [hdir]
      exact ⟨rfl, rfl⟩
    · intro hdir
      unfold fireBullet
      rw [hdir]
      exact ⟨rfl, rfl⟩
  · intro hf
    unfold updateOnePlayerTank
    rw [if_neg]
    · rfl
    · intro hcond
      rw [hf] at hcond
      exact Bool.false_ne_true hcond.1
  · intro hc
    unfold updateOnePlayerTank
    rw [if_neg]
    · rfl
    · intro hcond
      have h2 := hcond.2
      have h3 : (movedTank m inp delta t).cooldown ≤ 0 := by
        simpa [movedTank] using h2
      rw [hcd] at h3
      exact absurd hc (not_lt.mpr h3)

/-- Witness for C7: the sample tank with zero cooldown and a firing input
emits exactly the muzzle bullet with power 1. -/
theorem updateOnePlayerTank_fire_witness :
    sampleInputFire.firing = true ∧ sampleTank.cooldown ≤ 0 ∧
    updateOnePlayerTank emptyMapState sampleInputFire 1 0 sampleTank =
      ({ movedTank emptyMapState sampleInputFire 1 sampleTank with cooldown := 300 },
       [(fireBullet (movedTank emptyMapState sampleInputFire 1 sampleTank) 1).1], 1) ∧
    (fireBullet (movedTank emptyMapState sampleInputFire 1 sampleTank) 1).1.power = 1 := by
  have hc : sampleTank.cooldown ≤ 0 := le_refl 0
  have h := (updateOnePlayerTank_fire emptyMapState sampleInputFire 1 0 sampleTank).1 rfl hc
  exact ⟨rfl, hc, h.1, h.2.1⟩

/-- Helper: floor8 is nonnegative on nonnegative input. -/
theorem floor8_nonneg (x : ℚ) (h : 0 ≤ x) : 0 ≤ floor8 x := by
  unfold floor8
  have h8 : (0 : ℤ) ≤ ⌊x / 8⌋ := Int.floor_nonneg.mpr (by positivity)
  have h9 : (0 : ℚ) ≤ ((⌊x / 8⌋ : ℤ) : ℚ) := by exact_mod_cast h8
  simpa using mul_nonneg h9 (by norm_num : (0 : ℚ) ≤ 8)

/-- Helper: floor8 never exceeds its input. -/
theorem floor8_le (x : ℚ) : floor8 x ≤ x := by
  unfold floor8
  have h := Int.floor_le (x / 8)
  have h2 : ((⌊x / 8⌋ : ℤ) : ℚ) * 8 ≤ x / 8 * 8 :=
    mul_le_mul_of_nonneg_right h (by norm_num)
  calc ((⌊x / 8⌋ : ℤ) : ℚ) * 8 ≤ x / 8 * 8 := h2
    _ = x := by ring

/-- Helper: ceil8 is at least its input. -/
theorem le_ceil8 (x : ℚ) : x ≤ ceil8 x := by
  unfold ceil8
  have h := Int.le_ceil (x / 8)
  have h2 : x / 8 * 8 ≤ ((⌈x / 8⌉ : ℤ) : ℚ) * 8 :=
    mul_le_mul_of_nonneg_right h (by norm_num)
  calc x = x / 8 * 8 := by ring
    _ ≤ ((⌈x / 8⌉ : ℤ) : ℚ) * 8 := h2

/-- Helper: ceil8 stays within the tank's field range. -/
theorem ceil8_le_bound (x : ℚ) (h : x ≤ FIELD_SIZE - TANK_SIZE) :
    ceil8 x ≤ FIELD_SIZE - TANK_SIZE := by
  have h192 : FIELD_SIZE - TANK_SIZE = 192 := by
    norm_num [FIELD_SIZE, TANK_SIZE, BLOCK_SIZE]
  rw [h192] at h ⊢
  unfold ceil8
  have h24 : ⌈x / 8⌉ ≤ 24 := by
    rw [Int.ceil_le]
    rw [div_le_iff₀ (by norm_num : (0 : ℚ) < 8)]
    push_cast
    linarith
  have h2 : ((⌈x / 8⌉ : ℤ) : ℚ) ≤ 24 := by exact_mod_cast h24
  nlinarith

/-- Helper: round8 is nonnegative on nonnegative input. -/
theorem round8_nonneg (x : ℚ) (h : 0 ≤ x) : 0 ≤ round8 x := by
  unfold round8
  have h8 : (0 : ℤ) ≤ ⌊x / 8 + 1/2⌋ := Int.floor_nonneg.mpr (by positivity)
  have h9 : (0 : ℚ) ≤ ((⌊x / 8 + 1/2⌋ : ℤ) : ℚ) := by exact_mod_cast h8
  simpa using mul_nonneg h9 (by norm_num : (0 : ℚ) ≤ 8)

/-- Helper: round8 stays within the tank's field range. -/
theorem round8_le_bound (x : ℚ) (h : x ≤ FIELD_SIZE - TANK_SIZE) :
    round8 x ≤ FIELD_SIZE - TANK_SIZE := by
  have h192 : FIELD_SIZE - TANK_SIZE = 192 := by
    norm_num [FIELD_SIZE, TANK_SIZE, BLOCK_SIZE]
  rw [h192] at h ⊢
  unfold round8
  have hlt : ⌊x / 8 + 1/2⌋ < 25 := by
    rw [Int.floor_lt]
    have hx : x / 8 ≤ 24 := by
      rw [div_le_iff₀ (by norm_num : (0 : ℚ) < 8)]
      linarith
    push_cast
    linarith
  have h24 : ⌊x / 8 + 1/2⌋ ≤ 24 := by omega
  have h2 : ((⌊x / 8 + 1/2⌋ : ℤ) : ℚ) ≤ 24 := by exact_mod_cast h24
  nlinarith

/-- Helper: the clamp of an in-range value is the value itself. -/
theorem clamp_eq_self (v : ℚ) (h0 : 0 ≤ v) (h1 : v ≤ FIELD_SIZE - TANK_SIZE) :
    max 0 (min (FIELD_SIZE - TANK_SIZE) v) = v := by
  rw [min_eq_right h1, max_eq_right h0]

/-- Helper: branch characterization of getAlignedCoordinate on the x axis,
phrased as the specification does (the free one of floor8/ceil8 when exactly
one is free, round8 otherwise). -/
theorem getAligned_x_spec (m : MapState) (x y : ℚ) :
    getAlignedCoordinate m x y Axis.x =
      (if checkTankWallCollision m (floor8 x) y = false ∧
          checkTankWallCollision m (ceil8 x) y = true then floor8 x
       else if checkTankWallCollision m (ceil8 x) y = false ∧
          checkTankWallCollision m (floor8 x) y = true then ceil8 x
       else round8 x) := by
  unfold getAlignedCoordinate
  cases hF : checkTankWallCollision m (floor8 x) y <;>
    cases hC : checkTankWallCollision m (ceil8 x) y <;>
    simp [hF, hC]

/-- Helper: branch characterization of getAlignedCoordinate on the y axis. -/
theorem getAligned_y_spec (m : MapState) (x y : ℚ) :
    getAlignedCoordinate m x y Axis.y =
      (if checkTankWallCollision m x (floor8 y) = false ∧
          checkTankWallCollision m x (ceil8 y) = true then floor8 y
       else if checkTankWallCollision m x (ceil8 y) = false ∧
          checkTankWallCollision m x (floor8 y) = true then ceil8 y
       else round8 y) := by
  unfold getAlignedCoordinate
  cases hF : checkTankWallCollision m x (floor8 y) <;>
    cases hC : checkTankWallCollision m x (ceil8 y) <;>
    simp [hF, hC]

/-- C1: a player tank update whose requested direction is perpendicular to
the facing aligns the coordinate of the old movement axis before assigning
the new direction: the collision-free one of floor8/ceil8 when exactly one
is free, round8 otherwise (both free or both blocked); parallel turns and
same-direction inputs perform no alignment. -/
theorem applyDirection_align (m : MapState) (t : TankState) (inp : InputCell)
    (d : Direction) (hd : inp.direction = some d) :
    (d = t.direction → applyDirection m inp t = t) ∧
    (d ≠ t.direction → isHorizontal d = isHorizontal t.direction →
      applyDirection m inp t = { t with direction := d }) ∧
    (d ≠ t.direction → isHorizontal t.direction ≠ isHorizontal d →
      (isHorizontal t.direction = true → 0 ≤ t.x → t.x ≤ FIELD_SIZE - TANK_SIZE →
        applyDirection m inp t = { t with
          direction := d
          x := if checkTankWallCollision m (floor8 t.x) t.y = false ∧
                  checkTankWallCollision m (ceil8 t.x) t.y = true then floor8 t.x
               else if checkTankWallCollision m (ceil8 t.x) t.y = false ∧
                  checkTankWallCollision m (floor8 t.x) t.y = true then ceil8 t.x
               else round8 t.x }) ∧
      (isHorizontal t.direction = false → 0 ≤ t.y → t.y ≤ FIELD_SIZE - TANK_SIZE →
        applyDirection m inp t = { t with
          direction := d
          y := if checkTankWallCollision m t.x (floor8 t.y) = false ∧
                  checkTankWallCollision m t.x (ceil8 t.y) = true then floor8 t.y
               else if checkTankWallCollision m t.x (ceil8 t.y) = false ∧
                  checkTankWallCollision m t.x (floor8 t.y) = true then ceil8 t.y
               else round8 t.y })) := by
  refine ⟨?_, ?_, ?_⟩
  · intro heq
    unfold applyDirection
    rw [hd]
    simp [heq]
  · intro hne hpar
    unfold applyDirection
    rw [hd]
    dsimp only
    rw [if_neg hne, if_neg (by simp [hpar])]
  · intro hne hperp
    constructor <;> intro hh h0 h1
    · have hbx : 0 ≤ getAlignedCoordinate m t.x t.y Axis.x ∧
          getAlignedCoordinate m t.x t.y Axis.x ≤ FIELD_SIZE - TANK_SIZE := by
        rw [getAligned_x_spec]
        split_ifs
        · exact ⟨floor8_nonneg _ h0, le_trans (floor8_le _) h1⟩
        · exact ⟨le_trans h0 (le_ceil8 _), ceil8_le_bound _ h1⟩
        · exact ⟨round8_nonneg _ h0, round8_le_bound _ h1⟩
      have hclamp := clamp_eq_self _ hbx.1 hbx.2
      unfold applyDirection
      rw [hd]
      dsimp only
      rw [if_neg hne, if_pos hperp, if_pos hh, hclamp, getAligned_x_spec]
    · have hby : 0 ≤ getAlignedCoordinate m t.x t.y Axis.y ∧
          getAlignedCoordinate m t.x t.y Axis.y ≤ FIELD_SIZE - TANK_SIZE := by
        rw [getAligned_y_spec]
        split_ifs
        · exact ⟨floor8_nonneg _ h0, le_trans (floor8_le _) h1⟩
        · exact ⟨le_trans h0 (le_ceil8 _), ceil8_le_bound _ h1⟩
        · exact ⟨round8_nonneg _ h0, round8_le_bound _ h1⟩
      have hclamp := clamp_eq_self _ hby.1 hby.2
      unfold applyDirection
      rw [hd]
      dsimp only
      rw [if_neg hne, if_pos hperp, if_neg (by simp [hh]), hclamp, getAligned_y_spec]

/-- Witness for C1: the left-facing sample tank at x = 3 receiving an
up-input on the empty map takes the perpendicular alignment branch. -/
theorem applyDirection_align_witness :
    sampleInputUp.direction = some Direction.up ∧
    Direction.up ≠ sampleTank.direction ∧
    isHorizontal sampleTank.direction ≠ isHorizontal Direction.up ∧
    isHorizontal sampleTank.direction = true ∧
    0 ≤ sampleTank.x ∧ sampleTank.x ≤ FIELD_SIZE - TANK_SIZE ∧
    applyDirection emptyMapState sampleInputUp sampleTank = { sampleTank with
      direction := Direction.up
      x := if checkTankWallCollision emptyMapState (floor8 sampleTank.x) sampleTank.y = false ∧
              checkTankWallCollision emptyMapState (ceil8 sampleTank.x) sampleTank.y = true
           then floor8 sampleTank.x
           else if checkTankWallCollision emptyMapState (ceil8 sampleTank.x) sampleTank.y = false ∧
              checkTankWallCollision emptyMapState (floor8 sampleTank.x) sampleTank.y = true
           then ceil8 sampleTank.x
           else round8 sampleTank.x } := by
  have hne : Direction.up ≠ sampleTank.direction := by decide
  have hperp : isHorizontal sampleTank.direction ≠ isHorizontal Direction.up := by decide
  have hh : isHorizontal sampleTank.direction = true := by decide
  have h0 : 0 ≤ sampleTank.x := by norm_num [sampleTank]
  have h1 : sampleTank.x ≤ FIELD_SIZE - TANK_SIZE := by
    norm_num [sampleTank, FIELD_SIZE, TANK_SIZE, BLOCK_SIZE]
  exact ⟨rfl, hne, hperp, hh, h0, h1,
    ((applyDirection_align emptyMapState sampleTank sampleInputUp Direction.up rfl).2.2
      hne hperp).1 hh h0 h1⟩

/-- Helper: a cell of side s that overlaps a box of width w with positive
area lies between the floor-division bounds used by the window iteration. -/
theorem floor_window (c s w : ℚ) (k : ℤ) (hs : 0 < s)
    (hlow : s * k < c + w) (hhigh : c < s * k + s) :
    ⌊c / s⌋ ≤ k ∧ k ≤ ⌊(c + w) / s⌋ := by
  constructor
  · have hdiv : c / s < (k : ℚ) + 1 := by
      rw [div_lt_iff₀ hs]
      nlinarith
    have hfl : ⌊c / s⌋ < k + 1 := by
      rw [Int.floor_lt]
      push_cast
      linarith
    omega
  · have hdiv : (k : ℚ) ≤ (c + w) / s := by
      rw [le_div_iff₀ hs]
      nlinarith
    exact Int.le_floor.mpr hdiv

/-- Helper: a brick cell overlapping the bullet box with positive area is
inside the scanned brick window. -/
theorem meets_imp_inBrickWindow (b : BulletState) (i : ℕ) (hi : i < BRICKS_TOTAL)
    (h : brickCellMeetsBullet b i) : inBrickWindow b i := by
  obtain ⟨h1, h2, h3, h4⟩ := h
  unfold brickCellX at h1 h2
  unfold brickCellY at h3 h4
  unfold inBrickWindow brickWindow
  simp only [BRICK_SIZE, BULLET_SIZE, BRICKS_PER_ROW, BRICKS_TOTAL]
    at h1 h2 h3 h4 hi ⊢
  have hx := floor_window b.x 4 3 ((i % 52 : ℕ) : ℤ) (by norm_num)
    (by simp only [Int.cast_natCast]; linarith) (by simp only [Int.cast_natCast]; linarith)
  have hy := floor_window b.y 4 3 ((i / 52 : ℕ) : ℤ) (by norm_num)
    (by simp only [Int.cast_natCast]; linarith) (by simp only [Int.cast_natCast]; linarith)
  refine ⟨max_le ?_ hx.1, le_min ?_ hx.2, max_le ?_ hy.1, le_min ?_ hy.2⟩
  · positivity
  · omega
  · positivity
  · omega

/-- Helper: a steel cell overlapping the bullet box with positive area is
inside the scanned steel window. -/
theorem meets_imp_inSteelWindow (b : BulletState) (i : ℕ) (hi : i < STEELS_TOTAL)
    (h : steelCellMeetsBullet b i) : inSteelWindow b i := by
  obtain ⟨h1, h2, h3, h4⟩ := h
  unfold steelCellX at h1 h2
  unfold steelCellY at h3 h4
  unfold inSteelWindow steelWindow
  simp only [STEEL_SIZE, BULLET_SIZE, STEELS_PER_ROW, STEELS_TOTAL]
    at h1 h2 h3 h4 hi ⊢
  have hx := floor_window b.x 8 3 ((i % 26 : ℕ) : ℤ) (by norm_num)
    (by simp only [Int.cast_natCast]; linarith) (by simp only [Int.cast_natCast]; linarith)
  have hy := floor_window b.y 8 3 ((i / 26 : ℕ) : ℤ) (by norm_num)
    (by simp only [Int.cast_natCast]; linarith) (by simp only [Int.cast_natCast]; linarith)
  refine ⟨max_le ?_ hx.1, le_min ?_ hx.2, max_le ?_ hy.1, le_min ?_ hy.2⟩
  · positivity
  · omega
  · positivity
  · omega

/-- C3: in the per-bullet wall-collision step, every live brick cell that
overlaps the bullet's bounding box is set to false; a live overlapping steel
cell is set to false only when the bullet's power is at least 3 (a weaker
bullet leaves the whole steel grid unchanged); a bullet that met any live
brick or steel is flagged as hit, and a hit bullet is removed by
handleBulletWallCollisions in the same step. -/
theorem bulletWallStep_spec (m : MapState) (b : BulletState) :
    (∀ i, i < BRICKS_TOTAL → brickCellMeetsBullet b i → m.bricks i = true →
      (bulletWallStep m b).1.bricks i = false) ∧
    (3 ≤ b.power →
      ∀ i, i < STEELS_TOTAL → steelCellMeetsBullet b i → m.steels i = true →
        (bulletWallStep m b).1.steels i = false) ∧
    (b.power < 3 → ∀ i, (bulletWallStep m b).1.steels i = m.steels i) ∧
    ((∃ i, i < BRICKS_TOTAL ∧ brickCellMeetsBullet b i ∧ m.bricks i = true) ∨
     (∃ i, i < STEELS_TOTAL ∧ steelCellMeetsBullet b i ∧ m.steels i = true) →
      (bulletWallStep m b).2 = true) ∧
    ((bulletWallStep m b).2 = true → (handleBulletWallCollisions m [b]).2 = []) := by
  refine ⟨?_, ?_, ?_, ?_, ?_⟩
  · intro i hi hmeets hlive
    have hwin := meets_imp_inBrickWindow b i hi hmeets
    simp [bulletWallStep, hwin, hlive]
  · intro hp i hi hmeets hlive
    have hwin := meets_imp_inSteelWindow b i hi hmeets
    simp [bulletWallStep, hp, hwin, hlive]
  · intro hp i
    have hnp : ¬ 3 ≤ b.power := by omega
    simp [bulletWallStep, hnp]
  · intro hhit
    have : bulletHitsWall m b := by
      rcases hhit with ⟨i, hi, hmeets, hlive⟩ | ⟨i, hi, hmeets, hlive⟩
      · exact Or.inl ⟨i, hi, meets_imp_inBrickWindow b i hi hmeets, hlive⟩
      · exact Or.inr ⟨i, hi, meets_imp_inSteelWindow b i hi hmeets, hlive⟩
    simp [bulletWallStep, this]
  · intro hmark
    simp [handleBulletWallCollisions, bulletWallLoop, hmark]

/-- Witness for C3: a power-1 bullet at (1, 1) on the map whose only live
cell is brick 0 destroys that brick and is flagged as hit. -/
theorem bulletWallStep_spec_witness :
    sampleBulletNearOrigin.bulletId < BRICKS_TOTAL ∧
    brickCellMeetsBullet sampleBulletNearOrigin 0 ∧
    brickZeroMap.bricks 0 = true ∧
    (bulletWallStep brickZeroMap sampleBulletNearOrigin).1.bricks 0 = false ∧
    (bulletWallStep brickZeroMap sampleBulletNearOrigin).2 = true := by
  have hmeets : brickCellMeetsBullet sampleBulletNearOrigin 0 := by
    norm_num [brickCellMeetsBullet, brickCellX, brickCellY, sampleBulletNearOrigin,
      BULLET_SIZE, BRICK_SIZE, BRICKS_PER_ROW]
  have hlive : brickZeroMap.bricks 0 = true := by decide
  have h0 : (0 : ℕ) < BRICKS_TOTAL := by decide
  refine ⟨by decide, hmeets, hlive, ?_, ?_⟩
  · exact (bulletWallStep_spec brickZeroMap sampleBulletNearOrigin).1 0 h0 hmeets hlive
  · exact (bulletWallStep_spec brickZeroMap sampleBulletNearOrigin).2.2.2.1
      (Or.inl ⟨0, h0, hmeets, hlive⟩)

/-- Helper: consing the element at position m in front of the list with
position m overwritten by b is a permutation of b consed on the list. -/
theorem cons_set_perm (t : List α) :
    ∀ (m : ℕ) (b vj : α), t[m]? = some vj →
      List.Perm (vj :: t.set m b) (b :: t) := by
  induction t with
  | nil =>
    intro m b vj h
    simp at h
  | cons c t ih =>
    intro m b vj h
    cases m with
    | zero =>
      simp at h
      subst h
      exact List.Perm.swap b c t
    | succ k =>
      simp at h
      have ihk := ih k b vj h
      exact (List.Perm.swap c vj (t.set k b)).trans
        ((List.Perm.cons c ihk).trans (List.Perm.swap b c t))

/-- Helper: the simultaneous two-position overwrite of swapList is a
permutation of the original list. -/
theorem set_set_perm (l : List α) :
    ∀ (i j : ℕ) (vi vj : α), l[i]? = some vi → l[j]? = some vj →
      List.Perm ((l.set i vj).set j vi) l := by
  induction l with
  | nil =>
    intro i j vi vj hi _
    simp at hi
  | cons a t ih =>
    intro i j vi vj hi hj
    cases i with
    | zero =>
      simp at hi
      subst hi
      cases j with
      | zero =>
        simp at hj
        subst hj
        simp
      | succ k =>
        simp at hj
        simpa using cons_set_perm t k a vj hj
    | succ m =>
      simp at hi
      cases j with
      | zero =>
        simp at hj
        subst hj
        simpa using cons_set_perm t m a vi hi
      | succ k =>
        simp at hj
        exact List.Perm.cons a (ih m k vi vj hi hj)

/-- Helper: swapList always permutes. -/
theorem swapList_perm (l : List α) (i j : ℕ) : List.Perm (swapList l i j) l := by
  unfold swapList
  split
  · rename_i vi vj hvi hvj
    exact set_set_perm l i j vi vj hvi hvj
  · exact List.Perm.refl l

/-- Helper: the Fisher-Yates loop permutes its input for every seed. -/
theorem shuffleFrom_perm :
    ∀ (n : ℕ) (l : List α) (r : ℕ), List.Perm (shuffleFrom l r n).1 l := by
  intro n
  induction n with
  | zero =>
    intro l r
    exact List.Perm.refl l
  | succ k ih =>
    intro l r
    exact (ih _ _).trans (swapList_perm l (k + 1) _)

/-- Helper: shuffleArray permutes its input for every seed. -/
theorem shuffleArray_perm (l : List α) (seed : ℕ) :
    List.Perm (shuffleArray l seed) l :=
  shuffleFrom_perm _ l seed

/-- Helper: every generated enemy queue has exactly 20 entries. -/
theorem initializeEnemyQueue_length (rid : String) :
    (initializeEnemyQueue rid).length = 20 := by
  have h := (shuffleArray_perm baseEnemyQueue (generateSeed rid)).length_eq
  unfold initializeEnemyQueue
  rw [h]
  rfl

/-- Helper: n successive spawnNextEnemy calls starting at counter c read off
q.drop c when c + n covers exactly the queue. -/
theorem spawnLevels_eq_drop :
    ∀ (n : ℕ) (q : List TankLevel) (c : ℕ), c + n = q.length →
      spawnLevels { queue := q, counter := c } n =
        (q.drop c).map (fun lv => some lv) := by
  intro n
  induction n with
  | zero =>
    intro q c h
    have : q.drop c = [] := by
      apply List.drop_eq_nil_of_le
      omega
    simp [spawnLevels, this]
  | succ k ih =>
    intro q c h
    have hc : c < q.length := by omega
    unfold spawnLevels spawnNextEnemy
    rw [dif_pos hc]
    dsimp only
    rw [ih q (c + 1) (by omega), List.drop_eq_getElem_cons hc, List.map_cons]
    simp [List.get_eq_getElem]

/-- C6: enemy-queue generation is a deterministic function of the room id
(two initializations with equal room ids yield the same 20-spawn level
sequence), every generated queue is a permutation of 18 basic, 1 fast and
1 power produced by the seeded-LCG shuffle, and the spawn sequence for bots
1..20 reads off exactly that queue. -/
theorem enemyQueue_deterministic_and_perm (rid1 rid2 : String) (h : rid1 = rid2) :
    spawnLevels (initialEnemyQueueState rid1) 20 =
      spawnLevels (initialEnemyQueueState rid2) 20 ∧
    List.Perm (initializeEnemyQueue rid1) baseEnemyQueue ∧
    (initializeEnemyQueue rid1).length = 20 ∧
    (initializeEnemyQueue rid1).count TankLevel.basic = 18 ∧
    (initializeEnemyQueue rid1).count TankLevel.fast = 1 ∧
    (initializeEnemyQueue rid1).count TankLevel.power = 1 ∧
    spawnLevels (initialEnemyQueueState rid1) 20 =
      (initializeEnemyQueue rid1).map (fun lv => some lv) := by
  subst h
  have hperm : List.Perm (initializeEnemyQueue rid1) baseEnemyQueue :=
    shuffleArray_perm baseEnemyQueue (generateSeed rid1)
  have hlen := initializeEnemyQueue_length rid1
  refine ⟨rfl, hperm, hlen, ?_, ?_, ?_, ?_⟩
  · rw [hperm.count_eq]
    decide
  · rw [hperm.count_eq]
    decide
  · rw [hperm.count_eq]
    decide
  · have := spawnLevels_eq_drop 20 (initializeEnemyQueue rid1) 0 (by omega)
    unfold initialEnemyQueueState
    rw [this]
    simp

/-- Witness for C6: the characterization applied at a concrete room id. -/
theorem enemyQueue_deterministic_and_perm_witness :
    ("ABC123" : String) = "ABC123" ∧
    (spawnLevels (initialEnemyQueueState "ABC123") 20 =
      spawnLevels (initialEnemyQueueState "ABC123") 20 ∧
    List.Perm (initializeEnemyQueue "ABC123") baseEnemyQueue ∧
    (initializeEnemyQueue "ABC123").length = 20 ∧
    (initializeEnemyQueue "ABC123").count TankLevel.basic = 18 ∧
    (initializeEnemyQueue "ABC123").count TankLevel.fast = 1 ∧
    (initializeEnemyQueue "ABC123").count TankLevel.power = 1 ∧
    spawnLevels (initialEnemyQueueState "ABC123") 20 =
      (initializeEnemyQueue "ABC123").map (fun lv => some lv)) :=
  ⟨rfl, enemyQueue_deterministic_and_perm "ABC123" "ABC123" rfl⟩

/-- Helper: one role's player-tank update never touches remainingBots. -/
theorem updateRole_remainingBots (e : Engine) (delta : ℚ) (r : Role) :
    (updateRole e delta r).state.remainingBots = e.state.remainingBots := by
  unfold updateRole
  split
  · rfl
  · split
    · rfl
    · split
      · rfl
      · rfl

/-- Helper: a whole tick never touches remainingBots. -/
theorem tick_remainingBots (e : Engine) (delta : ℚ) :
    (tick e delta).state.remainingBots = e.state.remainingBots := by
  unfold tick updatePlayerTanks
  dsimp only
  rw [updateRole_remainingBots, updateRole_remainingBots]

/-- Helper: n spawnNextEnemy calls advance the counter by n while the queue
lasts. -/
theorem spawnN_counter :
    ∀ (n : ℕ) (s : EnemyQueueState), s.counter + n ≤ s.queue.length →
      (spawnN s n).counter = s.counter + n := by
  intro n
  induction n with
  | zero =>
    intro s _
    simp [spawnN]
  | succ k ih =>
    intro s h
    have hc : s.counter < s.queue.length := by omega
    unfold spawnN spawnNextEnemy
    rw [dif_pos hc]
    dsimp only
    have h2 : ({ s with counter := s.counter + 1 } : EnemyQueueState).counter + k ≤
        ({ s with counter := s.counter + 1 } : EnemyQueueState).queue.length := by
      dsimp only
      omega
    rw [ih _ h2]
    dsimp only
    omega

/-- C5 (code evaluation): the engine initializes remainingBots to 20 and no
tick nor snapshot ever changes it, while four spawnNextEnemy calls (the
initial burst at game start) advance the per-room spawn counter to 4; hence
snapshot remainingBots plus bots already spawned is 24, not 20. -/
theorem remainingBots_plus_spawned_breaks (mapData : MapState) (rid : String) :
    (createInitialState mapData).remainingBots = 20 ∧
    (∀ e delta, (tick e delta).state.remainingBots = e.state.remainingBots) ∧
    (∀ e now, (getState e now).remainingBots = e.state.remainingBots) ∧
    (spawnN (initialEnemyQueueState rid) 4).counter = 4 ∧
    (createInitialState mapData).remainingBots +
      (spawnN (initialEnemyQueueState rid) 4).counter ≠ 20 := by
  have hlen := initializeEnemyQueue_length rid
  have hcount : (spawnN (initialEnemyQueueState rid) 4).counter = 4 := by
    have := spawnN_counter 4 (initialEnemyQueueState rid)
      (by simp [initialEnemyQueueState, hlen])
    simpa [initialEnemyQueueState] using this
  refine ⟨rfl, tick_remainingBots, fun e now => rfl, hcount, ?_⟩
  rw [hcount]
  have h20 : (createInitialState mapData).remainingBots = 20 := rfl
  rw [h20]
  decide

end BattleCity
